import Mathlib

/-!
# Click-to-toggle image size (`src/Library/enlarge_images.js`)

The script binds one click handler to every `img` of the page.  The handler
looks at the class list of the clicked element (`this`), swaps the size
markers `small` / `large`, and asks the animation engine to move some CSS
properties to new target values over 200 ms.

The DOM library calls used by the script (`hasClass`, `removeClass`,
`addClass`, `animate`, `on`) belong to an external collaborator whose code is
not part of the repository.  They are embedded as the specification describes
them (test / add / remove a marker on an element; animate a set of named
properties on an element to target values over a given duration), on the
whitespace separated class tokens of the element: `removeClass` drops every
occurrence of the token, `addClass` appends the token when it is not yet
there, `animate` issues one request and the element ends at the targets of
that request.
-/

namespace EnlargeImages

/-! ## Data model -/

/-- The three CSS properties the script animates, as CSS value strings. -/
structure Style where
  maxHeight : String
  maxWidth : String
  width : String
  deriving DecidableEq, Repr

/-- An image element: its class tokens in attribute order, and its bounds. -/
structure Element where
  classes : List String
  style : Style
  deriving DecidableEq, Repr

/-- One call of `animate(properties, duration)`: target values by CSS property
name, in the order of the object literal, and the duration in ms. -/
structure AnimRequest where
  props : List (String × String)
  duration : Nat
  deriving DecidableEq, Repr

/-! ## The DOM library calls -/

/-- Modelled from the spec: the library call `$(this).hasClass(c)`, whose code
is not in the repository ("test a marker on an element"): is the token `c` in
the class list? -/
def hasClass (e : Element) (c : String) : Bool :=
  e.classes.contains c

/-- Modelled from the spec: the library call `$(this).removeClass(c)`, whose
code is not in the repository ("remove a marker on an element"): every
occurrence of `c` leaves the class list. -/
def removeClass (e : Element) (c : String) : Element :=
  { e with classes := e.classes.filter (fun x => x != c) }

/-- Modelled from the spec: the library call `$(this).addClass(c)`, whose code
is not in the repository ("add a marker on an element"): `c` is appended
unless it is already present. -/
def addClass (e : Element) (c : String) : Element :=
  if e.classes.contains c then e else { e with classes := e.classes ++ [c] }

/-- Writing one CSS property by name; names other than the three bounds are
not part of the element state. -/
def Style.setProp (s : Style) (name value : String) : Style :=
  if name = "max-height" then { s with maxHeight := value }
  else if name = "max-width" then { s with maxWidth := value }
  else if name = "width" then { s with width := value }
  else s

/-- The bounds once a request has run: every target of the request is the new
value of its property. -/
def Style.applyTargets (s : Style) (props : List (String × String)) : Style :=
  props.foldl (fun acc p => acc.setProp p.1 p.2) s

/-- Modelled from the spec: the library call `$(this).animate(props, duration)`,
whose code is not in the repository ("animate a set of named properties on an
element to target values over a given duration"): exactly one request is
handed to the animation engine, and the element ends at its targets. -/
def animate (e : Element) (props : List (String × String)) (duration : Nat) :
    Element × List AnimRequest :=
  ({ e with style := e.style.applyTargets props }, [{ props := props, duration := duration }])

/-! ## The click handler (lines 2-10 of the script) -/

/-- The body of `function() { ... }` bound by `.on('click', ...)`, run with
`this` the clicked element.  Returns the element afterwards and the animation
requests issued by this run. -/
def clickHandler (this : Element) : Element × List AnimRequest :=
  if hasClass this "small" then
    let this1 := addClass (removeClass this "small") "large"
    animate this1 [("max-height", "40vw"), ("max-width", "80vw")] 200
  else
    let this1 := addClass (removeClass this "large") "small"
    animate this1 [("max-height", "400px"), ("max-width", "800px"), ("width", "auto")] 200

/-- The element after one click. -/
def click (this : Element) : Element :=
  (clickHandler this).1

/-- The animation requests issued by one click. -/
def requests (this : Element) : List AnimRequest :=
  (clickHandler this).2

/-- The element after `n` consecutive clicks. -/
def clicks : Nat → Element → Element
  | 0, e => e
  | n + 1, e => clicks n (click e)

/-- Bounds of the small state. -/
def smallBounds : Style := { maxHeight := "400px", maxWidth := "800px", width := "auto" }

/-- Number of size markers (`small`, `large`) present on the element. -/
def markerCount (e : Element) : Nat :=
  (if hasClass e "small" then 1 else 0) + (if hasClass e "large" then 1 else 0)

/-- Same presence of both size markers on two elements. -/
def sameMarker (a b : Element) : Prop :=
  hasClass a "small" = hasClass b "small" ∧ hasClass a "large" = hasClass b "large"

/-- Marker and bounds agree: `small` means the small bounds, `large` means
max-height 40vw and max-width 80vw. -/
def Consistent (e : Element) : Prop :=
  (hasClass e "small" = true → e.style = smallBounds) ∧
  (hasClass e "large" = true → e.style.maxHeight = "40vw" ∧ e.style.maxWidth = "80vw")

/-- Two clicks bring the element back to its marker and bounds. -/
def RestoredByTwoClicks (e : Element) : Prop :=
  sameMarker (click (click e)) e ∧ (click (click e)).style = e.style

/-- The states the toggle cycles through: exactly one marker, with the bounds a
click leaves for it (the enlarging branch keeps `width`, which is `auto` once
the shrinking branch has run). -/
def Resting (e : Element) : Prop :=
  (hasClass e "small" = true ∧ hasClass e "large" = false ∧ e.style = smallBounds) ∨
  (hasClass e "small" = false ∧ hasClass e "large" = true ∧
    e.style = { maxHeight := "40vw", maxWidth := "80vw", width := "auto" })

/-- A freshly rendered thumbnail: marked `small`, at the small bounds. -/
def smallImage : Element := { classes := ["small"], style := smallBounds }

/-- An enlarged image whose width was never touched by the shrinking branch. -/
def largeImage : Element :=
  { classes := ["large"], style := { maxHeight := "40vw", maxWidth := "80vw", width := "50%" } }

/-- An image that carries another class but neither size marker. -/
def unmarkedImage : Element :=
  { classes := ["photo"], style := { maxHeight := "40vw", maxWidth := "80vw", width := "50%" } }

/-- An image carrying both a size marker and another class. -/
def photoImage : Element := { classes := ["photo", "small"], style := smallBounds }

instance (a b : Element) : Decidable (sameMarker a b) := by
  unfold sameMarker; infer_instance

instance (e : Element) : Decidable (Consistent e) := by
  unfold Consistent; infer_instance

instance (e : Element) : Decidable (RestoredByTwoClicks e) := by
  unfold RestoredByTwoClicks; infer_instance

instance (e : Element) : Decidable (Resting e) := by
  unfold Resting; infer_instance

/-! ## Lemmas on the library calls -/

theorem hasClass_removeClass (e : Element) (c d : String) :
    hasClass (removeClass e c) d = (hasClass e d && (d != c)) := by
  simp only [hasClass, removeClass]
  rw [Bool.eq_iff_iff]
  simp [List.contains_iff_exists_mem_beq, List.mem_filter]

theorem hasClass_addClass (e : Element) (c d : String) :
    hasClass (addClass e c) d = (hasClass e d || (d == c)) := by
  unfold addClass hasClass
  rw [Bool.eq_iff_iff]
  by_cases h : e.classes.contains c = true
  · simp only [h, if_true]
    simp only [Bool.or_eq_true, beq_iff_eq]
    constructor
    · intro h1; exact Or.inl h1
    · rintro (h1 | h1)
      · exact h1
      · subst h1; exact h
  · simp only [h]
    simp [List.contains_iff_exists_mem_beq]

theorem style_removeClass (e : Element) (c : String) : (removeClass e c).style = e.style := rfl

theorem style_addClass (e : Element) (c : String) : (addClass e c).style = e.style := by
  unfold addClass; split <;> rfl

/-! ## One run of the handler -/

theorem clickHandler_small (e : Element) (h : hasClass e "small" = true) :
    clickHandler e =
      animate (addClass (removeClass e "small") "large")
        [("max-height", "40vw"), ("max-width", "80vw")] 200 := by
  simp [clickHandler, h]

theorem clickHandler_not_small (e : Element) (h : hasClass e "small" = false) :
    clickHandler e =
      animate (addClass (removeClass e "large") "small")
        [("max-height", "400px"), ("max-width", "800px"), ("width", "auto")] 200 := by
  simp [clickHandler, h]

theorem hasClass_animate (e : Element) (props : List (String × String)) (d : Nat) (c : String) :
    hasClass (animate e props d).1 c = hasClass e c := rfl

theorem hasClass_click (e : Element) (c : String) :
    hasClass (click e) c =
      if hasClass e "small" = true then ((hasClass e c && (c != "small")) || (c == "large"))
      else ((hasClass e c && (c != "large")) || (c == "small")) := by
  unfold click
  cases h : hasClass e "small"
  · rw [clickHandler_not_small e h, hasClass_animate, hasClass_addClass, hasClass_removeClass]
    simp
  · rw [clickHandler_small e h, hasClass_animate, hasClass_addClass, hasClass_removeClass]
    simp

theorem style_click (e : Element) :
    (click e).style =
      if hasClass e "small" = true then
        { maxHeight := "40vw", maxWidth := "80vw", width := e.style.width }
      else smallBounds := by
  unfold click
  cases h : hasClass e "small"
  · rw [clickHandler_not_small e h]
    simp [animate, Style.applyTargets, Style.setProp, smallBounds]
  · rw [clickHandler_small e h]
    simp [animate, Style.applyTargets, Style.setProp, style_addClass, style_removeClass]

theorem requests_eq (e : Element) :
    requests e =
      if hasClass e "small" = true then
        [{ props := [("max-height", "40vw"), ("max-width", "80vw")], duration := 200 }]
      else
        [{ props := [("max-height", "400px"), ("max-width", "800px"), ("width", "auto")],
           duration := 200 }] := by
  unfold requests
  cases h : hasClass e "small"
  · rw [clickHandler_not_small e h]; simp [animate]
  · rw [clickHandler_small e h]; simp [animate]

theorem small_click (e : Element) : hasClass (click e) "small" = !hasClass e "small" := by
  rw [hasClass_click]; cases hasClass e "small" <;> simp

theorem large_click (e : Element) : hasClass (click e) "large" = hasClass e "small" := by
  rw [hasClass_click]; cases hasClass e "small" <;> simp

theorem consistent_click (e : Element) : Consistent (click e) := by
  unfold Consistent
  rw [small_click, large_click, style_click]
  cases hasClass e "small" <;> simp

/-! ## The shape of the class list -/

theorem click_not_small (e : Element) (h : hasClass e "small" = false) :
    click e =
      { classes := e.classes.filter (fun x => x != "large") ++ ["small"], style := smallBounds } := by
  have hmem : "small" ∉ e.classes := by
    simpa [hasClass] using h
  unfold click
  rw [clickHandler_not_small e h]
  simp [animate, addClass, removeClass, hmem, Style.applyTargets, Style.setProp, smallBounds]

/-- C1, as stated, fails: an image carrying neither marker, at the small
bounds, is after two clicks marked `large` with bounds 40vw / 80vw. -/
theorem two_clicks_do_not_restore_unmarked :
    ¬ (sameMarker (click (click { classes := [], style := smallBounds }))
          { classes := [], style := smallBounds } ∧
       (click (click { classes := [], style := smallBounds })).style = smallBounds) := by
  decide

/-- C1 (amended): two consecutive clicks return an image to its marker
presence and to its max-height, max-width and width exactly when it carries
exactly one marker and already has the bounds a click leaves for that marker
(`small`: 400px, 800px, auto; `large`: 40vw, 80vw, width auto). -/
theorem two_clicks_restore_iff_resting (e : Element) :
    RestoredByTwoClicks e ↔ Resting e := by
  simp only [RestoredByTwoClicks, sameMarker, Resting, small_click, large_click, style_click]
  cases hs : hasClass e "small" <;> cases hl : hasClass e "large" <;>
    simp [smallBounds, eq_comm]

theorem two_clicks_restore_iff_resting_witness :
    Resting smallImage ∧ RestoredByTwoClicks smallImage :=
  ⟨by decide, (two_clicks_restore_iff_resting smallImage).mpr (by decide)⟩

/-- C2: after one click, from any state, the clicked element carries exactly
one of `small` and `large`. -/
theorem exactly_one_marker_after_click (e : Element) :
    ((hasClass (click e) "small" = true ∧ hasClass (click e) "large" = false) ∨
     (hasClass (click e) "small" = false ∧ hasClass (click e) "large" = true)) ∧
    markerCount (click e) = 1 := by
  unfold markerCount
  rw [small_click, large_click]
  cases hasClass e "small" <;> simp

/-- C3: after one click and after every further click, marker and bounds
agree: `small` goes with 400px / 800px / auto, `large` with 40vw / 80vw. -/
theorem consistent_after_every_click (e : Element) (n : Nat) :
    Consistent (clicks (n + 1) e) := by
  induction n generalizing e with
  | zero => exact consistent_click e
  | succ k ih => exact ih (click e)

/-- C5: a click on an image carrying `small` removes `small`, adds `large`,
and issues exactly one request, whose targets are max-height 40vw and
max-width 80vw and nothing else; width keeps its value. -/
theorem click_on_small_enlarges (e : Element) (h : hasClass e "small" = true) :
    hasClass (click e) "small" = false ∧
    hasClass (click e) "large" = true ∧
    requests e =
      [{ props := [("max-height", "40vw"), ("max-width", "80vw")], duration := 200 }] ∧
    (click e).style = { maxHeight := "40vw", maxWidth := "80vw", width := e.style.width } := by
  rw [small_click, large_click, requests_eq, style_click]
  simp [h]

theorem click_on_small_enlarges_witness :
    hasClass photoImage "small" = true ∧
    hasClass (click photoImage) "small" = false ∧
    hasClass (click photoImage) "large" = true ∧
    requests photoImage =
      [{ props := [("max-height", "40vw"), ("max-width", "80vw")], duration := 200 }] ∧
    (click photoImage).style =
      { maxHeight := "40vw", maxWidth := "80vw", width := photoImage.style.width } :=
  ⟨by decide, click_on_small_enlarges photoImage (by decide)⟩

/-- C6: two images without `small` that are equal once `large` is taken off
give the same element after one click: `large` absent, `small` present,
bounds 400px / 800px / auto, and the one request issued has exactly the
targets max-height 400px, max-width 800px, width auto. -/
theorem unmarked_clicks_like_large (a b : Element)
    (ha : hasClass a "small" = false) (hb : hasClass b "small" = false)
    (hab : removeClass a "large" = removeClass b "large") :
    click a = click b ∧
    requests a = requests b ∧
    hasClass (click a) "large" = false ∧
    hasClass (click a) "small" = true ∧
    (click a).style = smallBounds ∧
    requests a =
      [{ props := [("max-height", "400px"), ("max-width", "800px"), ("width", "auto")],
         duration := 200 }] := by
  have hcls : a.classes.filter (fun x => x != "large") = b.classes.filter (fun x => x != "large") :=
    congrArg Element.classes hab
  refine ⟨?_, ?_, ?_, ?_, ?_, ?_⟩
  · rw [click_not_small a ha, click_not_small b hb, hcls]
  · rw [requests_eq, requests_eq]; simp [ha, hb]
  · rw [large_click, ha]
  · rw [small_click, ha]; rfl
  · rw [style_click]; simp [ha]
  · rw [requests_eq]; simp [ha]

theorem unmarked_clicks_like_large_witness :
    hasClass unmarkedImage "small" = false ∧
    hasClass (addClass unmarkedImage "large") "small" = false ∧
    removeClass unmarkedImage "large" = removeClass (addClass unmarkedImage "large") "large" ∧
    click unmarkedImage = click (addClass unmarkedImage "large") ∧
    hasClass (click unmarkedImage) "small" = true :=
  ⟨by decide, by decide, by decide,
   (unmarked_clicks_like_large unmarkedImage (addClass unmarkedImage "large")
      (by decide) (by decide) (by decide)).1,
   (unmarked_clicks_like_large unmarkedImage (addClass unmarkedImage "large")
      (by decide) (by decide) (by decide)).2.2.2.1⟩

/-- C7: one click issues exactly one animation request, and its duration is
200, in the enlarging and in the shrinking branch. -/
theorem one_request_of_duration_200 (e : Element) :
    ∃ r : AnimRequest, requests e = [r] ∧ r.duration = 200 := by
  rw [requests_eq]
  cases hasClass e "small" <;> simp

/-- C8, as stated, fails: an image with no size marker has none before the
click and one (`small`) after it. -/
theorem click_creates_marker_on_unmarked :
    ¬ (markerCount (click unmarkedImage) = markerCount unmarkedImage) := by
  decide

/-- C8 (amended): on an image carrying exactly one size marker, a click keeps
the number of markers and leaves the opposite marker: `small` is present
afterwards iff `large` was before, and `large` iff `small` was. -/
theorem click_flips_single_marker (e : Element) (h : markerCount e = 1) :
    markerCount (click e) = markerCount e ∧
    hasClass (click e) "small" = hasClass e "large" ∧
    hasClass (click e) "large" = hasClass e "small" := by
  unfold markerCount at h ⊢
  rw [small_click, large_click]
  cases hs : hasClass e "small" <;> cases hl : hasClass e "large" <;> simp [hs, hl] at h ⊢

theorem click_flips_single_marker_witness :
    markerCount largeImage = 1 ∧
    markerCount (click largeImage) = markerCount largeImage ∧
    hasClass (click largeImage) "small" = hasClass largeImage "large" ∧
    hasClass (click largeImage) "large" = hasClass largeImage "small" :=
  ⟨by decide, click_flips_single_marker largeImage (by decide)⟩

/-- C9: a class other than `small` and `large` is on the clicked element after
the click iff it was there before. -/
theorem other_classes_kept (e : Element) (c : String)
    (h1 : c ≠ "small") (h2 : c ≠ "large") :
    hasClass (click e) c = hasClass e c := by
  have hs : (c == "small") = false := by simpa using h1
  have hl : (c == "large") = false := by simpa using h2
  rw [hasClass_click]
  cases hasClass e "small" <;> simp [bne, hs, hl]

theorem other_classes_kept_witness :
    "photo" ≠ "small" ∧ "photo" ≠ "large" ∧
    hasClass (click photoImage) "photo" = hasClass photoImage "photo" :=
  ⟨by decide, by decide, other_classes_kept photoImage "photo" (by decide) (by decide)⟩

end EnlargeImages
